import Mathlib

/-!
Verification development for the nanorpc-socketio-client repository.

The embedding models the two halves of the RPC protocol implemented in
`src/index.ts` (NanoRPCClient) and `src/server.ts` (NanoRPCServer):

* JavaScript runtime values are modelled by the inductive `JSVal`
  (numbers as integers; floating point is out of scope for the verified
  claims).  Truthiness, template-literal stringification, property lookup
  and the `params` normalization are translated directly from the source.
* The per-method socket event handler installed by `NanoRPCServer.on`
  is modelled by `dispatch`, which records the sequence of invocations of
  the acknowledgement responder `resp` (field `respCalls`) and whether a
  TypeError escaped the handler (field `crashed`; this happens in
  JavaScript when the inbound first argument is a truthy primitive, on
  which the expression `"method" in rpc` throws).
* The registration guard of `NanoRPCServer.on` is modelled by
  `NanoRPCServer.on` over an explicit `ServerState`.  The JavaScript
  `in` operator it uses (and the channel test of the `/publish` handler)
  consults the prototype chain, so it is also true for names of
  `Object.prototype` properties on an empty table; this is modelled by
  `objectPrototypeKeys` and `jsIn`.
* The `/publish` fan-out handler installed by the `NanoRPCServer`
  constructor is modelled by `publishChannels`/`publishCalls`, with
  listener functions represented by identity tokens (`Nat`), matching the
  reference-identity comparison `listeners.indexOf(listener) < 0`.
* The client-side `parseReply` closure of `NanoRPCClient.apply`, the
  acknowledgement callbacks of the timeout / plain emit branches, and the
  emit-wrapper selection (`this.timeout > 0`) are modelled by
  `parseReply`, `applyAckWrapped`, `applyAckPlain`, `applyEmit`,
  `subscribeEmit`, `unsubscribeEmit` and `subscribeAck`.
-/

/-- A JavaScript runtime value, as deliverable by the socket transport.
`vUndefined` models `undefined` (in particular an absent object field). -/
inductive JSVal where
  | vNull
  | vUndefined
  | vBool (b : Bool)
  | vNum (n : Int)
  | vStr (s : String)
  | vArr (elems : List JSVal)
  | vObj (fields : List (String × JSVal))

/-- JavaScript truthiness of a value. -/
def truthy : JSVal → Bool
  | .vNull => false
  | .vUndefined => false
  | .vBool b => b
  | .vNum n => n != 0
  | .vStr s => s != ""
  | .vArr _ => true
  | .vObj _ => true

mutual

/-- JavaScript template-literal stringification `${v}` (String(v)):
arrays join their elements with commas, where null/undefined elements
become the empty string; plain objects print as "[object Object]". -/
def jsToString : JSVal → String
  | .vNull => "null"
  | .vUndefined => "undefined"
  | .vBool b => if b then "true" else "false"
  | .vNum n => toString n
  | .vStr s => s
  | .vArr xs => String.intercalate "," (jsElems xs)
  | .vObj _ => "[object Object]"

/-- Element-wise stringification used by Array.prototype.toString. -/
def jsElems : List JSVal → List String
  | [] => []
  | .vNull :: vs => "" :: jsElems vs
  | .vUndefined :: vs => "" :: jsElems vs
  | v :: vs => jsToString v :: jsElems vs

end

/-- Property access `fields[key]` on an object: `undefined` when absent. -/
def objGet (fields : List (String × JSVal)) (key : String) : JSVal :=
  match List.lookup key fields with
  | some v => v
  | none => .vUndefined

/-- The expression `rpc?.id ?? ""` from server.ts: empty string when the
envelope is not an object with a non-nullish `id` field. -/
def idOf (rpc : JSVal) : JSVal :=
  match rpc with
  | .vObj fs =>
    match objGet fs "id" with
    | .vNull => .vStr ""
    | .vUndefined => .vStr ""
    | v => v
  | _ => .vStr ""

/-- NanoRPCStatus.OK from index.ts. -/
def NanoRPCStatus.OK : Int := 0

/-- NanoRPCStatus.Exception from index.ts. -/
def NanoRPCStatus.Exception : Int := 1

def NanoRPCErrCode.DuplicateMethod : Int := -1

def NanoRPCErrCode.MethodNotFound : Int := -2

def NanoRPCErrCode.ProtocolError : Int := -3

def NanoRPCErrCode.MissingMethod : Int := -4

def NanoRPCErrCode.ParameterError : Int := -5

def NanoRPCErrCode.CallError : Int := -6

/-- A NanoRPCError value (code plus message), as thrown by the library
and as carried in the `error` field of a reply envelope. -/
structure NanoRPCError where
  code : Int
  message : String
deriving DecidableEq

/-- A reply envelope, as produced by the `createNanoReply` /
`createNanoRPCError` helpers of nanorpc-validator and consumed by the
client's `parseReply` (fields `id`, `status`, `error?.code`,
`error?.message`, `result`). -/
structure NanoReply where
  id : JSVal
  status : Int
  error : Option NanoRPCError
  result : Option JSVal

/-- createNanoRPCError(id, status, code, message). -/
def createNanoRPCError (id : JSVal) (status code : Int) (message : String) : NanoReply :=
  { id := id, status := status, error := some { code := code, message := message },
    result := none }

/-- createNanoReply(id, status, result). -/
def createNanoReply (id : JSVal) (status : Int) (result : JSVal) : NanoReply :=
  { id := id, status := status, error := none, result := some result }

/-- One structured schema-violation entry exposed by the external
validator engine (`validator.errors`). -/
structure SchemaError where
  keyword : String
  instancePath : String
  message : String
deriving DecidableEq

/-- The per-rule line built in both server.ts and index.ts:
backtick-template `${err.keyword}: ${err.instancePath}, ${err.message}`. -/
def errLine (e : SchemaError) : String :=
  e.keyword ++ ": " ++ e.instancePath ++ ", " ++ e.message

/-- `lines.join("\n")` over all violated rules. -/
def joinedErrors (errs : List SchemaError) : String :=
  String.intercalate "\n" (errs.map errLine)

/-- A compiled schema validator, as returned by the external validator
registry: `none` means the payload validates, `some errs` means it fails
with the structured entries `errs` in `validator.errors`. -/
abbrev SchemaValidator := JSVal → Option (List SchemaError)

/-- The outcome of invoking a user handler: a returned (or resolved)
value, or a thrown (or rejected) value, split by the `instanceof` /
`typeof` tests the catch block performs. -/
inductive HandlerOutcome where
  | ok (value : JSVal)
  | throwNanoRPCError (code : Int) (message : String)
  | throwString (s : String)
  | throwErrorObj (message : String)
  | throwValue (v : JSVal)

/-- The params normalization in `doFunc` (server.ts):
`Array.isArray(rpc.params) ? rpc.params : rpc.params ? [rpc.params] : []`. -/
def normalizeParams (params : JSVal) : List JSVal :=
  match params with
  | .vArr xs => xs
  | v => if truthy v then [v] else []

/-- What one delivery of a call event to the handler produced: the list
of invocations of the responder `resp` in order, and whether an
exception escaped the event handler. -/
structure DispatchTrace where
  respCalls : List NanoReply
  crashed : Bool
deriving Nonempty

/-- The per-method inbound event handler installed by `NanoRPCServer.on`
(server.ts lines 73-157), for the bound method name `method`, the
registered validator (if any) and the user handler `func`.
`respCallable` models `typeof resp === "function"`; `rpc` is the inbound
first argument.  Branches, in source order: drop when the responder is
not callable; ProtocolError when `!rpc || !("method" in rpc) ||
typeof rpc.method !== "string"` (on a truthy primitive the `in` operator
throws a TypeError, which escapes the handler: `crashed`); MissingMethod
when `rpc.method !== method`; ParameterError when the registered
validator fails; otherwise run the handler on the normalized params and
reply OK with its value or Exception from the catch block. -/
def dispatch (method : String) (validator : Option SchemaValidator)
    (func : List JSVal → HandlerOutcome) (respCallable : Bool) (rpc : JSVal) :
    DispatchTrace :=
  if respCallable = false then { respCalls := [], crashed := false }
  else if truthy rpc = false then
    { respCalls := [createNanoRPCError (idOf rpc) NanoRPCStatus.Exception
        NanoRPCErrCode.ProtocolError "Protocol Error"], crashed := false }
  else
    match rpc with
    | .vObj fs =>
      match objGet fs "method" with
      | .vStr m =>
        if m ≠ method then
          { respCalls := [createNanoRPCError (idOf rpc) NanoRPCStatus.Exception
              NanoRPCErrCode.MissingMethod "Missing Method"], crashed := false }
        else
          let runIt : DispatchTrace :=
            match func (normalizeParams (objGet fs "params")) with
            | .ok value =>
              { respCalls := [createNanoReply (objGet fs "id") NanoRPCStatus.OK value],
                crashed := false }
            | .throwNanoRPCError code message =>
              { respCalls := [createNanoRPCError (idOf rpc) NanoRPCStatus.Exception
                  code message], crashed := false }
            | .throwString s =>
              { respCalls := [createNanoRPCError (idOf rpc) NanoRPCStatus.Exception
                  NanoRPCErrCode.CallError s], crashed := false }
            | .throwErrorObj message =>
              { respCalls := [createNanoRPCError (idOf rpc) NanoRPCStatus.Exception
                  NanoRPCErrCode.CallError message], crashed := false }
            | .throwValue v =>
              { respCalls := [createNanoRPCError (idOf rpc) NanoRPCStatus.Exception
                  NanoRPCErrCode.CallError (jsToString v)], crashed := false }
          match validator with
          | some v =>
            match v rpc with
            | some errs =>
              { respCalls := [createNanoRPCError (idOf rpc) NanoRPCStatus.Exception
                  NanoRPCErrCode.ParameterError (joinedErrors errs)], crashed := false }
            | none => runIt
          | none => runIt
      | _ =>
        { respCalls := [createNanoRPCError (idOf rpc) NanoRPCStatus.Exception
            NanoRPCErrCode.ProtocolError "Protocol Error"], crashed := false }
    | .vArr _ =>
      { respCalls := [createNanoRPCError (idOf rpc) NanoRPCStatus.Exception
          NanoRPCErrCode.ProtocolError "Protocol Error"], crashed := false }
    | _ => { respCalls := [], crashed := true }

/-- A call envelope as delivered by the transport: `null`/`undefined`
(an absent payload) or an object, matching the wire shape of a Call
Envelope.  On these values the structural check never throws. -/
def envelopeLike : JSVal → Bool
  | .vNull => true
  | .vUndefined => true
  | .vObj _ => true
  | _ => false

/-- The remote error object carried in a reply's `error` field as seen
by the client; either field may be absent on the wire. -/
structure RemoteError where
  code : Option Int
  message : Option String
deriving DecidableEq

/-- A reply envelope as received by `NanoRPCClient.apply`'s callback. -/
structure ClientReply where
  status : Int
  error : Option RemoteError
  result : Option JSVal

/-- A compiled reply validator registered on the client for a method:
`none` means the reply validates, `some errs` that it fails. -/
abbrev ReplyValidator := ClientReply → Option (List SchemaError)

/-- The `parseReply` closure of `NanoRPCClient.apply` (index.ts lines
162-185): check the reply against the registered reply schema if any,
then the status, returning the result or the thrown NanoRPCError. -/
def parseReply (method : String) (validator : Option ReplyValidator)
    (reply : ClientReply) : Except NanoRPCError (Option JSVal) :=
  let statusCheck : Except NanoRPCError (Option JSVal) :=
    if reply.status ≠ NanoRPCStatus.OK then
      .error { code := (reply.error.bind RemoteError.code).getD NanoRPCErrCode.CallError,
               message := "Call " ++ method ++ " " ++
                 ((reply.error.bind RemoteError.message).getD "unknown error") }
    else .ok reply.result
  match validator with
  | some v =>
    match v reply with
    | some errs =>
      .error { code := NanoRPCErrCode.CallError,
               message := "Call " ++ method ++ ", " ++ joinedErrors errs }
    | none => statusCheck
  | none => statusCheck

/-- How the promise returned by `apply` settles. -/
inductive ApplySettle where
  | resolved (value : Option JSVal)
  | rejected (error : NanoRPCError)
  | rejectedTransport (message : String)
deriving Nonempty

/-- The acknowledgement callback of the `timeout > 0` branch of `apply`:
`(error, reply) => error ? reject(error) : resolve-or-reject(parseReply
reply)`.  A transport timeout surfaces as the `error` argument. -/
def applyAckWrapped (method : String) (validator : Option ReplyValidator)
    (error : Option String) (reply : ClientReply) : ApplySettle :=
  match error with
  | some e => .rejectedTransport e
  | none =>
    match parseReply method validator reply with
    | .ok v => .resolved v
    | .error e => .rejected e

/-- The acknowledgement callback of the plain-emit branch of `apply`:
`(reply) => resolve-or-reject(parseReply reply)`; the transport passes
it no error argument. -/
def applyAckPlain (method : String) (validator : Option ReplyValidator)
    (reply : ClientReply) : ApplySettle :=
  match parseReply method validator reply with
  | .ok v => .resolved v
  | .error e => .rejected e

/-- One socket emission: the event name and the timeout wrapper applied
to it (`some ms` models `socket.timeout(ms).emit`, `none` a plain
`socket.emit`). -/
structure EmitCall where
  event : String
  timeoutMs : Option Int
deriving DecidableEq

/-- `options?.timeout ?? 0` from the NanoRPCClient constructor. -/
def clientTimeout (optionsTimeout : Option Int) : Int :=
  optionsTimeout.getD 0

/-- The emission performed by `apply` (index.ts lines 187-211):
wrapped in `socket.timeout(this.timeout)` iff `this.timeout > 0`. -/
def applyEmit (timeout : Int) : EmitCall :=
  if timeout > 0 then { event := "/nanorpcs", timeoutMs := some timeout }
  else { event := "/nanorpcs", timeoutMs := none }

/-- The emission performed by `subscribe` (index.ts lines 138-156). -/
def subscribeEmit (timeout : Int) : EmitCall :=
  if timeout > 0 then { event := "/subscribe", timeoutMs := some timeout }
  else { event := "/subscribe", timeoutMs := none }

/-- The emission performed by the unsubscribe closure (index.ts lines
112-136). -/
def unsubscribeEmit (timeout : Int) : EmitCall :=
  if timeout > 0 then { event := "/unsubscribe", timeoutMs := some timeout }
  else { event := "/unsubscribe", timeoutMs := none }

/-- How the promise returned by `subscribe` (or by the unsubscribe
closure) settles: the remote-confirmed channel list, or a transport
error rejection.  Only the `timeout > 0` branch installs a callback
with an error parameter; the plain branch's callback receives the
acknowledgement arguments only and always resolves. -/
inductive SubscribeSettle where
  | confirmed (channels : List String)
  | rejectedTransport (message : String)
deriving DecidableEq

/-- The acknowledgement handling of `subscribe`/`unsubscribe`
(both share the same shape): with the timeout wrapper, an error argument
rejects; otherwise the granted channel list resolves. -/
def subscribeAck (timeout : Int) (error : Option String)
    (channels : List String) : SubscribeSettle :=
  if timeout > 0 then
    match error with
    | some e => .rejectedTransport e
    | none => .confirmed channels
  else .confirmed channels

/-- The property names of `Object.prototype` (ECMAScript, including the
Annex B accessor properties).  A plain object literal such as
`this.methods = \x7b\x7d` or `this.subscribes = \x7b\x7d` inherits all of
them, so the JavaScript `in` operator is true for each of these names
even on an empty table, and property access for them yields the
inherited function or accessor, never one of the table's arrays. -/
def objectPrototypeKeys : List String :=
  ["constructor", "hasOwnProperty", "isPrototypeOf", "propertyIsEnumerable",
   "toLocaleString", "toString", "valueOf", "__proto__", "__defineGetter__",
   "__defineSetter__", "__lookupGetter__", "__lookupSetter__"]

/-- The JavaScript `in` operator on a plain object literal whose own
keys are `ownKeys`: true for an own key and for every property inherited
from `Object.prototype`. -/
def jsIn (key : String) (ownKeys : List String) : Bool :=
  decide (key ∈ ownKeys ∨ key ∈ objectPrototypeKeys)

/-- The subscription table `this.subscribes`: channel name to the list
of registered listeners, each listener represented by an identity token
(reference identity in the source). -/
abbrev SubTable := List (String × List Nat)

/-- The inner `forEach` of the `/publish` handler over one channel's
listener list: `seen` is the accumulated `listeners` array; a listener
not yet in it is appended and invoked.  Returns the updated accumulator
and the invocations made, in order. -/
def publishListeners (seen : List Nat) : List Nat → List Nat × List Nat
  | [] => (seen, [])
  | l :: ls =>
    if l ∈ seen then publishListeners seen ls
    else
      let r := publishListeners (seen ++ [l]) ls
      (r.1, l :: r.2)

/-- The outer `forEach` of the `/publish` handler (server.ts lines
45-59) over the broadcast's channel list, threading the shared
`listeners` accumulator.  The guard `channel in this.subscribes`
consults the prototype chain: it is true when the channel is an own key
of the table (`List.lookup` succeeds) and also when the channel names an
`Object.prototype` property; in that second case
`this.subscribes[channel]` is the inherited member, not an array, and
the `.forEach` call on it throws a TypeError that aborts the whole
broadcast (no listener of this or any later channel is invoked).  A
channel for which the guard is false contributes nothing.  Returns the
invocations made, in order, and whether the fan-out was aborted by that
TypeError. -/
def publishChannels (subs : SubTable) (seen : List Nat) :
    List String → List Nat × Bool
  | [] => ([], false)
  | c :: cs =>
    match List.lookup c subs with
    | some ls =>
      let r := publishListeners seen ls
      let rest := publishChannels subs r.1 cs
      (r.2 ++ rest.1, rest.2)
    | none =>
      if c ∈ objectPrototypeKeys then ([], true)
      else publishChannels subs seen cs

/-- All listener invocations performed by one `/publish` event. -/
def publishCalls (subs : SubTable) (channels : List String) : List Nat :=
  (publishChannels subs [] channels).1

/-- Whether one `/publish` event was aborted by the TypeError raised on
an unsubscribed channel whose name collides with an `Object.prototype`
property. -/
def publishCrashed (subs : SubTable) (channels : List String) : Bool :=
  (publishChannels subs [] channels).2

/-- The invocations together with the payload each receives: every
invoked listener is called with the broadcast's own argument list. -/
def publishInvocations (subs : SubTable) (channels : List String)
    (args : List JSVal) : List (Nat × List JSVal) :=
  (publishCalls subs channels).map (fun l => (l, args))

/-- The registration state of a NanoRPCServer: the `methods` table and
the socket listeners installed so far (event name with the bound user
handler). -/
structure ServerState where
  methods : List String
  handlers : List (String × (List JSVal → HandlerOutcome))

/-- `NanoRPCServer.on(method, func)` (server.ts lines 62-161): the
guard `method in this.methods` consults the prototype chain (`jsIn`),
so it also fires for a name inherited from `Object.prototype`; when it
fires, the DuplicateMethod NanoRPCError is thrown and the state is
unchanged, otherwise the per-method socket listener is installed and
the method recorded. -/
def NanoRPCServer.on (st : ServerState) (method : String)
    (func : List JSVal → HandlerOutcome) : ServerState × Option NanoRPCError :=
  if jsIn method st.methods then
    (st, some { code := NanoRPCErrCode.DuplicateMethod,
                message := method ++ " method already registered" })
  else
    ({ methods := st.methods ++ [method],
       handlers := st.handlers ++ [("/nanorpcs/" ++ method, func)] }, none)

theorem dispatch_obj_eval (method : String) (validator : Option SchemaValidator)
    (func : List JSVal → HandlerOutcome) (fs : List (String × JSVal))
    (hm : objGet fs "method" = JSVal.vStr method)
    (hv : ∀ vd, validator = some vd → vd (JSVal.vObj fs) = none) :
    dispatch method validator func true (JSVal.vObj fs) =
      match func (normalizeParams (objGet fs "params")) with
      | .ok value =>
        { respCalls := [createNanoReply (objGet fs "id") NanoRPCStatus.OK value],
          crashed := false }
      | .throwNanoRPCError code message =>
        { respCalls := [createNanoRPCError (idOf (JSVal.vObj fs)) NanoRPCStatus.Exception
            code message], crashed := false }
      | .throwString s =>
        { respCalls := [createNanoRPCError (idOf (JSVal.vObj fs)) NanoRPCStatus.Exception
            NanoRPCErrCode.CallError s], crashed := false }
      | .throwErrorObj message =>
        { respCalls := [createNanoRPCError (idOf (JSVal.vObj fs)) NanoRPCStatus.Exception
            NanoRPCErrCode.CallError message], crashed := false }
      | .throwValue v =>
        { respCalls := [createNanoRPCError (idOf (JSVal.vObj fs)) NanoRPCStatus.Exception
            NanoRPCErrCode.CallError (jsToString v)], crashed := false } := by
  cases validator with
  | none => simp [dispatch, truthy, hm]
  | some vd => simp [dispatch, truthy, hm, hv vd rfl]

/-- C1: for every inbound call envelope (null/undefined or an object)
delivered to a bound dispatcher handler with a callable responder, the
handler invokes the responder with exactly one reply envelope and no
exception escapes, in every branch; when the responder is not a
function, no reply is produced and the call is dropped silently. -/
theorem dispatch_replies_exactly_once (method : String)
    (validator : Option SchemaValidator) (func : List JSVal → HandlerOutcome)
    (rpc : JSVal) (h : envelopeLike rpc = true) :
    ((dispatch method validator func true rpc).respCalls.length = 1 ∧
      (dispatch method validator func true rpc).crashed = false) ∧
    dispatch method validator func false rpc =
      { respCalls := [], crashed := false } := by
  refine ⟨?_, by simp [dispatch]⟩
  cases rpc with
  | vNull => simp [dispatch, truthy]
  | vUndefined => simp [dispatch, truthy]
  | vObj fs =>
    cases hm : objGet fs "method" with
    | vStr m =>
      by_cases hmm : m = method
      · subst hmm
        have hvd : ∀ vd, validator = some vd → vd (JSVal.vObj fs) = none ∨
            ∃ errs, vd (JSVal.vObj fs) = some errs := by
          intro vd _
          cases hr : vd (JSVal.vObj fs) with
          | none => exact Or.inl rfl
          | some errs => exact Or.inr ⟨errs, rfl⟩
        cases validator with
        | none =>
          rw [dispatch_obj_eval m none func fs hm (by intro vd hvd'; cases hvd')]
          cases func (normalizeParams (objGet fs "params")) <;> simp
        | some vd =>
          cases hr : vd (JSVal.vObj fs) with
          | none =>
            rw [dispatch_obj_eval m (some vd) func fs hm
              (by intro vd' hvd'; cases hvd'; exact hr)]
            cases func (normalizeParams (objGet fs "params")) <;> simp
          | some errs => simp [dispatch, truthy, hm, hr]
      · simp [dispatch, truthy, hm, hmm]
    | vNull => simp [dispatch, truthy, hm]
    | vUndefined => simp [dispatch, truthy, hm]
    | vBool b => simp [dispatch, truthy, hm]
    | vNum n => simp [dispatch, truthy, hm]
    | vArr xs => simp [dispatch, truthy, hm]
    | vObj gs => simp [dispatch, truthy, hm]
  | vArr xs => simp [dispatch, truthy]
  | vBool b => simp [envelopeLike] at h
  | vNum n => simp [envelopeLike] at h
  | vStr s => simp [envelopeLike] at h

theorem dispatch_replies_exactly_once_witness :
    envelopeLike (JSVal.vObj [("method", JSVal.vStr "f"), ("id", JSVal.vStr "1")]) = true ∧
    (((dispatch "f" none (fun _ => HandlerOutcome.ok JSVal.vNull) true
        (JSVal.vObj [("method", JSVal.vStr "f"), ("id", JSVal.vStr "1")])).respCalls.length = 1 ∧
      (dispatch "f" none (fun _ => HandlerOutcome.ok JSVal.vNull) true
        (JSVal.vObj [("method", JSVal.vStr "f"), ("id", JSVal.vStr "1")])).crashed = false) ∧
    dispatch "f" none (fun _ => HandlerOutcome.ok JSVal.vNull) false
        (JSVal.vObj [("method", JSVal.vStr "f"), ("id", JSVal.vStr "1")]) =
      { respCalls := [], crashed := false }) :=
  ⟨rfl, dispatch_replies_exactly_once "f" none (fun _ => HandlerOutcome.ok JSVal.vNull)
    (JSVal.vObj [("method", JSVal.vStr "f"), ("id", JSVal.vStr "1")]) rfl⟩

/-- C4: a call envelope that matches the bound method but fails the
registered schema validator is answered with a ParameterError reply
whose message is the newline-joined list of one line per violated rule
in the format keyword-colon-path-comma-message, covering every violated
rule. -/
theorem dispatch_schema_violation_reply (method : String) (vd : SchemaValidator)
    (func : List JSVal → HandlerOutcome) (fs : List (String × JSVal))
    (errs : List SchemaError)
    (hm : objGet fs "method" = JSVal.vStr method)
    (hv : vd (JSVal.vObj fs) = some errs) :
    dispatch method (some vd) func true (JSVal.vObj fs) =
      { respCalls := [createNanoRPCError (idOf (JSVal.vObj fs)) NanoRPCStatus.Exception
          NanoRPCErrCode.ParameterError
          (String.intercalate "\n" (errs.map (fun e =>
            e.keyword ++ ": " ++ e.instancePath ++ ", " ++ e.message)))],
        crashed := false } := by
  simp [dispatch, truthy, hm, hv, joinedErrors]
  rfl

theorem dispatch_schema_violation_reply_witness :
    dispatch "f" (some (fun _ => some [⟨"type", "/0", "must be number"⟩,
        ⟨"required", "", "must have property b"⟩]))
      (fun _ => HandlerOutcome.ok JSVal.vNull) true
      (JSVal.vObj [("method", JSVal.vStr "f"), ("id", JSVal.vStr "7")]) =
      { respCalls := [createNanoRPCError (idOf (JSVal.vObj [("method", JSVal.vStr "f"),
          ("id", JSVal.vStr "7")])) NanoRPCStatus.Exception
          NanoRPCErrCode.ParameterError
          (String.intercalate "\n" ([⟨"type", "/0", "must be number"⟩,
            ⟨"required", "", "must have property b"⟩].map (fun e : SchemaError =>
            e.keyword ++ ": " ++ e.instancePath ++ ", " ++ e.message)))],
        crashed := false } :=
  dispatch_schema_violation_reply "f" _ _ _ _ rfl rfl

/-- C5: whenever the handler throws or rejects, the dispatcher replies
with status Exception; the reply carries the thrown NanoRPCError's own
code when there is one, otherwise the generic CallError code, and the
reply message is the thrown string itself, the exception's message when
it is an Error, or the generic stringification of the thrown value. -/
theorem dispatch_handler_exception_reply (method : String)
    (validator : Option SchemaValidator) (func : List JSVal → HandlerOutcome)
    (fs : List (String × JSVal))
    (hm : objGet fs "method" = JSVal.vStr method)
    (hv : ∀ vd, validator = some vd → vd (JSVal.vObj fs) = none) :
    (∀ c msg, func (normalizeParams (objGet fs "params")) =
        HandlerOutcome.throwNanoRPCError c msg →
      dispatch method validator func true (JSVal.vObj fs) =
        { respCalls := [createNanoRPCError (idOf (JSVal.vObj fs))
            NanoRPCStatus.Exception c msg], crashed := false }) ∧
    (∀ s, func (normalizeParams (objGet fs "params")) = HandlerOutcome.throwString s →
      dispatch method validator func true (JSVal.vObj fs) =
        { respCalls := [createNanoRPCError (idOf (JSVal.vObj fs))
            NanoRPCStatus.Exception NanoRPCErrCode.CallError s], crashed := false }) ∧
    (∀ msg, func (normalizeParams (objGet fs "params")) = HandlerOutcome.throwErrorObj msg →
      dispatch method validator func true (JSVal.vObj fs) =
        { respCalls := [createNanoRPCError (idOf (JSVal.vObj fs))
            NanoRPCStatus.Exception NanoRPCErrCode.CallError msg], crashed := false }) ∧
    (∀ v, func (normalizeParams (objGet fs "params")) = HandlerOutcome.throwValue v →
      dispatch method validator func true (JSVal.vObj fs) =
        { respCalls := [createNanoRPCError (idOf (JSVal.vObj fs))
            NanoRPCStatus.Exception NanoRPCErrCode.CallError (jsToString v)],
          crashed := false }) := by
  refine ⟨fun c msg hf => ?_, fun s hf => ?_, fun msg hf => ?_, fun v hf => ?_⟩ <;>
    rw [dispatch_obj_eval method validator func fs hm hv, hf]

theorem dispatch_handler_exception_reply_witness :
    dispatch "f" none (fun _ => HandlerOutcome.throwString "boom") true
      (JSVal.vObj [("method", JSVal.vStr "f"), ("id", JSVal.vStr "9")]) =
      { respCalls := [createNanoRPCError (idOf (JSVal.vObj [("method", JSVal.vStr "f"),
          ("id", JSVal.vStr "9")])) NanoRPCStatus.Exception
          NanoRPCErrCode.CallError "boom"], crashed := false } :=
  (dispatch_handler_exception_reply "f" none (fun _ => HandlerOutcome.throwString "boom")
    [("method", JSVal.vStr "f"), ("id", JSVal.vStr "9")] rfl
    (by intro vd hvd; cases hvd)).2.1 "boom" rfl

/-- C9: for every accepted call envelope the argument list passed to the
handler is the normalization of the envelope's params field: an array is
spread as-is, a non-array truthy value becomes a one-element argument
list, and an absent or otherwise falsy params field becomes the empty
argument list. -/
theorem dispatch_params_normalization (method : String)
    (validator : Option SchemaValidator) (g : List JSVal → JSVal)
    (fs : List (String × JSVal))
    (hm : objGet fs "method" = JSVal.vStr method)
    (hv : ∀ vd, validator = some vd → vd (JSVal.vObj fs) = none) :
    dispatch method validator (fun args => HandlerOutcome.ok (g args)) true
        (JSVal.vObj fs) =
      { respCalls := [createNanoReply (objGet fs "id") NanoRPCStatus.OK
          (g (normalizeParams (objGet fs "params")))], crashed := false } ∧
    (∀ xs, normalizeParams (JSVal.vArr xs) = xs) ∧
    (∀ v, (∀ xs, v ≠ JSVal.vArr xs) → truthy v = true → normalizeParams v = [v]) ∧
    (∀ v, truthy v = false → normalizeParams v = []) ∧
    (∀ gs, List.lookup "params" gs = none → normalizeParams (objGet gs "params") = []) := by
  refine ⟨?_, fun xs => rfl, fun v hna ht => ?_, fun v hf => ?_, fun gs hg => ?_⟩
  · rw [dispatch_obj_eval method validator _ fs hm hv]
  · cases v with
    | vArr xs => exact absurd rfl (hna xs)
    | vNull => simp [truthy] at ht
    | vUndefined => simp [truthy] at ht
    | vBool b =>
      simp only [truthy] at ht
      simp [normalizeParams, truthy, ht]
    | vNum n =>
      simp only [truthy, bne_iff_ne, ne_eq] at ht
      simp [normalizeParams, truthy, ht]
    | vStr s =>
      simp only [truthy, bne_iff_ne, ne_eq] at ht
      simp [normalizeParams, truthy, ht]
    | vObj gs => rfl
  · cases v with
    | vArr xs => simp [truthy] at hf
    | vObj gs => simp [truthy] at hf
    | vNull => rfl
    | vUndefined => rfl
    | vBool b =>
      simp only [truthy] at hf
      simp [normalizeParams, truthy, hf]
    | vNum n =>
      simp only [truthy, bne_eq_false_iff_eq] at hf
      simp [normalizeParams, truthy, hf]
    | vStr s =>
      simp only [truthy, bne_eq_false_iff_eq] at hf
      simp [normalizeParams, truthy, hf]
  · simp [objGet, hg, normalizeParams, truthy]

theorem dispatch_params_normalization_witness :
    dispatch "f" none (fun args => HandlerOutcome.ok (JSVal.vArr args)) true
      (JSVal.vObj [("method", JSVal.vStr "f"), ("id", JSVal.vStr "3"),
        ("params", JSVal.vNum 5)]) =
      { respCalls := [createNanoReply (objGet [("method", JSVal.vStr "f"),
          ("id", JSVal.vStr "3"), ("params", JSVal.vNum 5)] "id") NanoRPCStatus.OK
          (JSVal.vArr (normalizeParams (objGet [("method", JSVal.vStr "f"),
            ("id", JSVal.vStr "3"), ("params", JSVal.vNum 5)] "params")))],
        crashed := false } :=
  (dispatch_params_normalization "f" none JSVal.vArr
    [("method", JSVal.vStr "f"), ("id", JSVal.vStr "3"), ("params", JSVal.vNum 5)]
    rfl (by intro vd hvd; cases hvd)).1

/-- C8 counterexample: on a fresh server instance the name "toString"
has never been registered, yet registration fails with the
DuplicateMethod error, because the guard `method in this.methods` is
true via the prototype chain of the empty methods table. -/
theorem on_prototype_name_spurious_duplicate :
    "toString" ∉ (ServerState.mk [] []).methods ∧
    NanoRPCServer.on (ServerState.mk [] []) "toString"
        (fun _ => HandlerOutcome.ok JSVal.vNull) =
      (ServerState.mk [] [],
        some { code := NanoRPCErrCode.DuplicateMethod,
               message := "toString method already registered" }) :=
  ⟨by decide, by rfl⟩

/-- C8 (amended): registering a method name already bound on the
instance fails with the DuplicateMethod error and leaves the
registration state (and so the originally bound handler) unchanged; the
same spurious failure occurs for a name never registered that collides
with an `Object.prototype` property name, because the `in` guard
consults the prototype chain; a name neither bound nor colliding
registers successfully, installing the handler under the per-method
event and recording the method. -/
theorem on_duplicate_method_amended (st : ServerState) (method : String)
    (func : List JSVal → HandlerOutcome) :
    (method ∈ st.methods →
      NanoRPCServer.on st method func =
        (st, some { code := NanoRPCErrCode.DuplicateMethod,
                    message := method ++ " method already registered" })) ∧
    (method ∈ objectPrototypeKeys →
      NanoRPCServer.on st method func =
        (st, some { code := NanoRPCErrCode.DuplicateMethod,
                    message := method ++ " method already registered" })) ∧
    (method ∉ st.methods → method ∉ objectPrototypeKeys →
      NanoRPCServer.on st method func =
        ({ methods := st.methods ++ [method],
           handlers := st.handlers ++ [("/nanorpcs/" ++ method, func)] }, none)) := by
  refine ⟨fun hmem => ?_, fun hmem => ?_, fun h1 h2 => ?_⟩
  · simp [NanoRPCServer.on, jsIn, hmem]
  · simp [NanoRPCServer.on, jsIn, hmem]
  · simp [NanoRPCServer.on, jsIn, h1, h2]

theorem on_duplicate_method_amended_witness :
    ("f" ∈ (ServerState.mk ["f"] []).methods ∧
      NanoRPCServer.on (ServerState.mk ["f"] []) "f"
          (fun _ => HandlerOutcome.ok JSVal.vNull) =
        (ServerState.mk ["f"] [],
          some { code := NanoRPCErrCode.DuplicateMethod,
                 message := "f method already registered" })) ∧
    ("g" ∉ (ServerState.mk ["f"] []).methods ∧ "g" ∉ objectPrototypeKeys ∧
      NanoRPCServer.on (ServerState.mk ["f"] []) "g"
          (fun _ => HandlerOutcome.ok JSVal.vNull) =
        ({ methods := ["f"] ++ ["g"],
           handlers := [] ++ [("/nanorpcs/" ++ "g",
             fun _ => HandlerOutcome.ok JSVal.vNull)] }, none)) :=
  ⟨⟨by decide, (on_duplicate_method_amended (ServerState.mk ["f"] []) "f"
      (fun _ => HandlerOutcome.ok JSVal.vNull)).1 (by decide)⟩,
   ⟨by decide, by decide, (on_duplicate_method_amended (ServerState.mk ["f"] []) "g"
      (fun _ => HandlerOutcome.ok JSVal.vNull)).2.2 (by decide) (by decide)⟩⟩

/-- C6: a reply that passes (or has no) reply-schema validation but
carries a non-OK status makes the call reject with an error carrying the
remote error's code and a message embedding the remote message; when the
remote omitted the code or the message the rejection falls back to the
generic CallError code and to the generic unknown-error message naming
the method.  The same rejection is what settles the promise in both the
timeout-wrapped and the plain acknowledgement callbacks. -/
theorem parseReply_non_ok_rejects (method : String)
    (validator : Option ReplyValidator) (reply : ClientReply)
    (hval : ∀ vd, validator = some vd → vd reply = none)
    (hstatus : reply.status ≠ NanoRPCStatus.OK) :
    parseReply method validator reply =
      .error { code := (reply.error.bind RemoteError.code).getD NanoRPCErrCode.CallError,
               message := "Call " ++ method ++ " " ++
                 ((reply.error.bind RemoteError.message).getD "unknown error") } ∧
    (reply.error = none →
      parseReply method validator reply =
        .error { code := NanoRPCErrCode.CallError,
                 message := "Call " ++ method ++ " " ++ "unknown error" }) ∧
    applyAckPlain method validator reply =
      .rejected { code := (reply.error.bind RemoteError.code).getD NanoRPCErrCode.CallError,
                  message := "Call " ++ method ++ " " ++
                    ((reply.error.bind RemoteError.message).getD "unknown error") } ∧
    applyAckWrapped method validator none reply =
      .rejected { code := (reply.error.bind RemoteError.code).getD NanoRPCErrCode.CallError,
                  message := "Call " ++ method ++ " " ++
                    ((reply.error.bind RemoteError.message).getD "unknown error") } := by
  have hmain : parseReply method validator reply =
      .error { code := (reply.error.bind RemoteError.code).getD NanoRPCErrCode.CallError,
               message := "Call " ++ method ++ " " ++
                 ((reply.error.bind RemoteError.message).getD "unknown error") } := by
    cases validator with
    | none => simp [parseReply, hstatus]
    | some vd => simp [parseReply, hstatus, hval vd rfl]
  refine ⟨hmain, fun hnone => ?_, ?_, ?_⟩
  · rw [hmain, hnone]
    rfl
  · simp [applyAckPlain, hmain]
  · simp [applyAckWrapped, hmain]

theorem parseReply_non_ok_rejects_witness :
    parseReply "add" none (ClientReply.mk 1 (some (RemoteError.mk (some (-5)) (some "bad"))) none) =
      .error { code := -5, message := "Call " ++ "add" ++ " " ++ "bad" } ∧
    parseReply "add" none (ClientReply.mk 1 none none) =
      .error { code := NanoRPCErrCode.CallError,
               message := "Call " ++ "add" ++ " " ++ "unknown error" } :=
  ⟨((parseReply_non_ok_rejects "add" none
      (ClientReply.mk 1 (some (RemoteError.mk (some (-5)) (some "bad"))) none)
      (by intro vd hvd; cases hvd) (by decide)).1),
   ((parseReply_non_ok_rejects "add" none (ClientReply.mk 1 none none)
      (by intro vd hvd; cases hvd) (by decide)).2.1 rfl)⟩

/-- C7: when a reply validator is registered and the reply fails the
reply schema, the call rejects with the structured CallError whose
message lists every violated rule in keyword-colon-path-comma-message
format joined into one multi-line string; this happens regardless of the
reply's status code (even an OK status), so it is distinguished from the
application-level non-OK rejection path. -/
theorem parseReply_schema_violation_rejects (method : String) (vd : ReplyValidator)
    (reply : ClientReply) (errs : List SchemaError)
    (hv : vd reply = some errs) :
    parseReply method (some vd) reply =
      .error { code := NanoRPCErrCode.CallError,
               message := "Call " ++ method ++ ", " ++
                 (String.intercalate "\n" (errs.map (fun e =>
                   e.keyword ++ ": " ++ e.instancePath ++ ", " ++ e.message))) } ∧
    applyAckPlain method (some vd) reply =
      .rejected { code := NanoRPCErrCode.CallError,
                  message := "Call " ++ method ++ ", " ++
                    (String.intercalate "\n" (errs.map (fun e =>
                      e.keyword ++ ": " ++ e.instancePath ++ ", " ++ e.message))) } := by
  have hmain : parseReply method (some vd) reply =
      .error { code := NanoRPCErrCode.CallError,
               message := "Call " ++ method ++ ", " ++
                 (String.intercalate "\n" (errs.map (fun e =>
                   e.keyword ++ ": " ++ e.instancePath ++ ", " ++ e.message))) } := by
    simp [parseReply, hv, joinedErrors]
    rfl
  exact ⟨hmain, by simp [applyAckPlain, hmain]⟩

theorem parseReply_schema_violation_rejects_witness :
    parseReply "add" (some (fun _ => some [⟨"type", "/result", "must be number"⟩]))
      (ClientReply.mk 0 none (some (JSVal.vStr "x"))) =
      .error { code := NanoRPCErrCode.CallError,
               message := "Call " ++ "add" ++ ", " ++
                 (String.intercalate "\n" ([⟨"type", "/result", "must be number"⟩].map
                   (fun e : SchemaError =>
                     e.keyword ++ ": " ++ e.instancePath ++ ", " ++ e.message))) } :=
  (parseReply_schema_violation_rejects "add" _
    (ClientReply.mk 0 none (some (JSVal.vStr "x"))) _ rfl).1

/-- C10: the timeout wrapper is applied to the apply, subscribe and
unsubscribe emissions exactly when the configured timeout is strictly
positive; with a non-positive timeout the emission is plain, the
acknowledgement callback has no transport-error parameter, and neither
an apply call nor a subscribe/unsubscribe call can settle with a
transport (timeout) rejection. -/
theorem timeout_wrapper_iff_positive (timeout : Int) :
    ((applyEmit timeout).timeoutMs.isSome = true ↔ timeout > 0) ∧
    ((subscribeEmit timeout).timeoutMs.isSome = true ↔ timeout > 0) ∧
    ((unsubscribeEmit timeout).timeoutMs.isSome = true ↔ timeout > 0) ∧
    (timeout ≤ 0 → ∀ method validator reply msg,
      applyAckPlain method validator reply ≠ ApplySettle.rejectedTransport msg) ∧
    (timeout ≤ 0 → ∀ error channels,
      subscribeAck timeout error channels = SubscribeSettle.confirmed channels) := by
  have hnotpos : ∀ t : Int, t ≤ 0 → ¬t > 0 := fun t ht => by omega
  refine ⟨?_, ?_, ?_, ?_, ?_⟩
  · constructor
    · intro h
      by_contra hneg
      simp [applyEmit, hneg] at h
    · intro h
      simp [applyEmit, h]
  · constructor
    · intro h
      by_contra hneg
      simp [subscribeEmit, hneg] at h
    · intro h
      simp [subscribeEmit, h]
  · constructor
    · intro h
      by_contra hneg
      simp [unsubscribeEmit, hneg] at h
    · intro h
      simp [unsubscribeEmit, h]
  · intro _ method validator reply msg
    unfold applyAckPlain
    cases parseReply method validator reply with
    | ok v => simp
    | error e => simp
  · intro ht error channels
    simp [subscribeAck, hnotpos timeout ht]

theorem timeout_wrapper_iff_positive_witness :
    ((applyEmit (-5)).timeoutMs.isSome = true ↔ (-5 : Int) > 0) ∧
    (((-5 : Int) ≤ 0) ∧
      applyAckPlain "f" none (ClientReply.mk 1 none none) ≠
        ApplySettle.rejectedTransport "operation has timed out" ∧
      subscribeAck (-5) (some "operation has timed out") ["a"] =
        SubscribeSettle.confirmed ["a"]) :=
  ⟨(timeout_wrapper_iff_positive (-5)).1,
   ⟨by decide,
    (timeout_wrapper_iff_positive (-5)).2.2.2.1 (by decide) "f" none
      (ClientReply.mk 1 none none) "operation has timed out",
    (timeout_wrapper_iff_positive (-5)).2.2.2.2 (by decide)
      (some "operation has timed out") ["a"]⟩⟩

theorem publishListeners_fst (seen ls : List Nat) :
    (publishListeners seen ls).1 = seen ++ (publishListeners seen ls).2 := by
  induction ls generalizing seen with
  | nil => simp [publishListeners]
  | cons l ls ih =>
    by_cases h : l ∈ seen
    · simpa [publishListeners, h] using ih seen
    · simp only [publishListeners, if_neg h]
      rw [ih (seen ++ [l])]
      simp

theorem publishListeners_mem (seen ls : List Nat) (x : Nat) :
    x ∈ (publishListeners seen ls).2 ↔ x ∈ ls ∧ x ∉ seen := by
  induction ls generalizing seen with
  | nil => simp [publishListeners]
  | cons l ls ih =>
    by_cases h : l ∈ seen
    · rw [publishListeners, if_pos h, ih seen]
      constructor
      · rintro ⟨hx, hns⟩
        exact ⟨List.mem_cons_of_mem l hx, hns⟩
      · rintro ⟨hx, hns⟩
        rcases List.mem_cons.mp hx with hx | hx
        · subst hx
          exact absurd h hns
        · exact ⟨hx, hns⟩
    · rw [publishListeners, if_neg h]
      by_cases hx : x = l
      · subst hx
        simp [h]
      · simp only [List.mem_cons, hx, false_or]
        rw [ih (seen ++ [l])]
        constructor
        · rintro ⟨hm, hns⟩
          exact ⟨hm, fun hc => hns (List.mem_append_left _ hc)⟩
        · rintro ⟨hm, hns⟩
          refine ⟨hm, fun hc => ?_⟩
          rcases List.mem_append.mp hc with hc | hc
          · exact hns hc
          · exact hx (List.mem_singleton.mp hc)

theorem publishListeners_nodup (seen ls : List Nat) (h : seen.Nodup) :
    (publishListeners seen ls).1.Nodup := by
  induction ls generalizing seen with
  | nil => simpa [publishListeners]
  | cons l ls ih =>
    by_cases hm : l ∈ seen
    · simpa [publishListeners, hm] using ih seen h
    · simp only [publishListeners, if_neg hm]
      apply ih
      simp [List.nodup_append, h, hm]

theorem publishChannels_mem (subs : SubTable) (cs : List String)
    (seen : List Nat) (x : Nat)
    (hsafe : ∀ c ∈ cs, (List.lookup c subs).isSome = true ∨
      c ∉ objectPrototypeKeys) :
    x ∈ (publishChannels subs seen cs).1 ↔
      x ∉ seen ∧ ∃ c ∈ cs, ∃ ls, List.lookup c subs = some ls ∧ x ∈ ls := by
  induction cs generalizing seen with
  | nil => simp [publishChannels]
  | cons c cs ih =>
    have hsafe' : ∀ c' ∈ cs, (List.lookup c' subs).isSome = true ∨
        c' ∉ objectPrototypeKeys :=
      fun c' hc' => hsafe c' (List.mem_cons_of_mem c hc')
    cases hl : List.lookup c subs with
    | none =>
      have hcp : c ∉ objectPrototypeKeys := by
        rcases hsafe c (List.mem_cons_self c cs) with h | h
        · simp [hl] at h
        · exact h
      rw [publishChannels, hl, if_neg hcp, ih seen hsafe']
      constructor
      · rintro ⟨hns, c', hc', ls, hls, hx⟩
        exact ⟨hns, c', List.mem_cons_of_mem c hc', ls, hls, hx⟩
      · rintro ⟨hns, c', hc', ls, hls, hx⟩
        rcases List.mem_cons.mp hc' with hc' | hc'
        · subst hc'
          rw [hl] at hls
          cases hls
        · exact ⟨hns, c', hc', ls, hls, hx⟩
    | some ls =>
      rw [publishChannels, hl]
      show x ∈ (publishListeners seen ls).2 ++
          (publishChannels subs (publishListeners seen ls).1 cs).1 ↔ _
      simp only [List.mem_append]
      rw [publishListeners_mem seen ls x, ih (publishListeners seen ls).1 hsafe']
      rw [publishListeners_fst seen ls]
      constructor
      · rintro (⟨hx, hns⟩ | ⟨hns, c', hc', ls', hls', hx⟩)
        · exact ⟨hns, c, List.mem_cons_self c cs, ls, hl, hx⟩
        · exact ⟨fun hc => hns (List.mem_append_left _ hc), c',
            List.mem_cons_of_mem c hc', ls', hls', hx⟩
      · rintro ⟨hns, c', hc', ls', hls', hx⟩
        by_cases hxl : x ∈ ls
        · exact Or.inl ⟨hxl, hns⟩
        · rcases List.mem_cons.mp hc' with hc' | hc'
          · subst hc'
            rw [hl] at hls'
            cases hls'
            exact absurd hx hxl
          · refine Or.inr ⟨fun hc => ?_, c', hc', ls', hls', hx⟩
            rcases List.mem_append.mp hc with hc | hc
            · exact hns hc
            · exact hxl ((publishListeners_mem seen ls x).mp hc).1

theorem publishChannels_nodup (subs : SubTable) (cs : List String)
    (seen : List Nat) (h : seen.Nodup) :
    (seen ++ (publishChannels subs seen cs).1).Nodup := by
  induction cs generalizing seen with
  | nil => simpa [publishChannels]
  | cons c cs ih =>
    cases hl : List.lookup c subs with
    | none =>
      by_cases hcp : c ∈ objectPrototypeKeys
      · rw [publishChannels, hl, if_pos hcp]
        simpa using h
      · rw [publishChannels, hl, if_neg hcp]
        exact ih seen h
    | some ls =>
      rw [publishChannels, hl]
      show (seen ++ ((publishListeners seen ls).2 ++
        (publishChannels subs (publishListeners seen ls).1 cs).1)).Nodup
      have h1 := publishListeners_fst seen ls
      have h2 := publishListeners_nodup seen ls h
      have h3 := ih (publishListeners seen ls).1 h2
      rw [← List.append_assoc, ← h1]
      exact h3

theorem publishCalls_nodup (subs : SubTable) (channels : List String) :
    (publishCalls subs channels).Nodup := by
  simpa [publishCalls] using publishChannels_nodup subs channels [] List.nodup_nil

theorem publishChannels_no_crash (subs : SubTable) (cs : List String)
    (seen : List Nat)
    (hsafe : ∀ c ∈ cs, (List.lookup c subs).isSome = true ∨
      c ∉ objectPrototypeKeys) :
    (publishChannels subs seen cs).2 = false := by
  induction cs generalizing seen with
  | nil => rfl
  | cons c cs ih =>
    have hsafe' : ∀ c' ∈ cs, (List.lookup c' subs).isSome = true ∨
        c' ∉ objectPrototypeKeys :=
      fun c' hc' => hsafe c' (List.mem_cons_of_mem c hc')
    cases hl : List.lookup c subs with
    | none =>
      have hcp : c ∉ objectPrototypeKeys := by
        rcases hsafe c (List.mem_cons_self c cs) with h | h
        · simp [hl] at h
        · exact h
      rw [publishChannels, hl, if_neg hcp]
      exact ih seen hsafe'
    | some ls =>
      rw [publishChannels, hl]
      show (publishChannels subs (publishListeners seen ls).1 cs).2 = false
      exact ih (publishListeners seen ls).1 hsafe'

/-- C3 counterexample: the listener 7 is registered under channel "a",
which the broadcast ["toString", "a"] names, yet it is invoked zero
times: the unsubscribed channel "toString" passes the
`channel in this.subscribes` guard via the prototype chain, the `.forEach`
call on the inherited `Object.prototype.toString` throws a TypeError,
and the fan-out aborts before reaching channel "a". -/
theorem publish_prototype_channel_aborts :
    (∃ c ∈ ["toString", "a"], ∃ ls,
      List.lookup c ([("a", [7])] : SubTable) = some ls ∧ 7 ∈ ls) ∧
    (publishCalls [("a", [7])] ["toString", "a"]).count 7 = 0 ∧
    publishCrashed [("a", [7])] ["toString", "a"] = true :=
  ⟨⟨"a", by decide, ⟨[7], by decide, by decide⟩⟩, by decide, by decide⟩

/-- C3 (amended): on an inbound broadcast in which every named channel
either has an entry in the subscription table or does not collide with
an `Object.prototype` property name, every listener registered under at
least one of the broadcast's channels is invoked exactly once (and no
listener more than once) with the broadcast's payload, even when
registered under several of the broadcast's channels, and the fan-out
completes without the prototype-channel TypeError.  (A broadcast naming
an unsubscribed channel that collides with an `Object.prototype`
property name instead aborts with that TypeError, as the counterexample
shows.) -/
theorem publish_registered_listener_once_amended (subs : SubTable)
    (channels : List String) (l : Nat) (args : List JSVal)
    (hsafe : ∀ c ∈ channels, (List.lookup c subs).isSome = true ∨
      c ∉ objectPrototypeKeys) :
    ((publishCalls subs channels).count l = 1 ↔
      ∃ c ∈ channels, ∃ ls, List.lookup c subs = some ls ∧ l ∈ ls) ∧
    (publishCalls subs channels).count l ≤ 1 ∧
    publishCrashed subs channels = false ∧
    (publishInvocations subs channels args).map Prod.snd =
      List.replicate (publishCalls subs channels).length args := by
  have hnd := publishCalls_nodup subs channels
  have hmem : l ∈ publishCalls subs channels ↔
      ∃ c ∈ channels, ∃ ls, List.lookup c subs = some ls ∧ l ∈ ls := by
    simpa [publishCalls] using publishChannels_mem subs channels [] l hsafe
  refine ⟨?_, List.nodup_iff_count_le_one.mp hnd l, ?_, ?_⟩
  · constructor
    · intro h1
      exact hmem.mp (List.count_pos_iff.mp (by omega))
    · intro hr
      exact List.count_eq_one_of_mem hnd (hmem.mpr hr)
  · simpa [publishCrashed] using publishChannels_no_crash subs channels [] hsafe
  · unfold publishInvocations
    rw [List.map_map]
    generalize publishCalls subs channels = xs
    induction xs with
    | nil => rfl
    | cons a t ih => simp [List.replicate_succ, ih]

theorem publish_registered_listener_once_amended_witness :
    (∀ c ∈ ["a", "b"], (List.lookup c ([("a", [7]), ("b", [7])] : SubTable)).isSome = true ∨
      c ∉ objectPrototypeKeys) ∧
    (((publishCalls [("a", [7]), ("b", [7])] ["a", "b"]).count 7 = 1 ↔
      ∃ c ∈ ["a", "b"], ∃ ls,
        List.lookup c ([("a", [7]), ("b", [7])] : SubTable) = some ls ∧ 7 ∈ ls) ∧
    (publishCalls [("a", [7]), ("b", [7])] ["a", "b"]).count 7 ≤ 1 ∧
    publishCrashed [("a", [7]), ("b", [7])] ["a", "b"] = false ∧
    (publishInvocations [("a", [7]), ("b", [7])] ["a", "b"] [JSVal.vStr "msg"]).map Prod.snd =
      List.replicate (publishCalls [("a", [7]), ("b", [7])] ["a", "b"]).length
        [JSVal.vStr "msg"]) :=
  ⟨by decide, publish_registered_listener_once_amended [("a", [7]), ("b", [7])] ["a", "b"] 7
    [JSVal.vStr "msg"] (by decide)⟩
